import Mathlib

/-!
Shallow embedding of `qwiic_button.py` (SparkFun Qwiic Button I2C driver).

The driver is a thin wrapper object holding an I2C address and (in intent) a
reference to an I2C transport.  The transport is external; per the module's
documented contract it provides `isDeviceConnected`, `readByte`, `readBlock`,
`writeByte` and `writeWord`.  We embed the transport as a structure of pure
response functions, and each driver method as a pure function from the handle
state (plus arguments) to a result record carrying

  * the Python outcome: a normal return value or a raised exception,
  * the handle state after the call,
  * the list of I2C transactions issued to the transport.

Python's dynamic failures matter here, so name lookup on module globals and
the dynamic typing of `&`, `>>` and `bool()` are modelled explicitly.
-/

/-- The I2C transport collaborator (external to the repository), with the
byte/word/block interface documented in the module: connectivity probe and
register reads/writes.  `writeWord` takes an `Int` because Python callers can
pass arbitrary (even negative) integers through `setDebouncetime`. -/
structure Transport where
  isDeviceConnected : Nat → Bool
  readByte : Nat → Nat → Nat
  readBlock : Nat → Nat → Nat → List Nat
  writeByte : Nat → Nat → Nat → Bool
  writeWord : Nat → Nat → Int → Bool

/-- One I2C transaction issued to the transport, recorded for frame/effect
statements ("no transaction is issued"). -/
inductive Txn where
  | isDeviceConnected (addr : Nat)
  | readByte (addr reg : Nat)
  | readBlock (addr reg len : Nat)
  | writeByte (addr reg val : Nat)
  | writeWord (addr reg : Nat) (val : Int)
deriving Repr, DecidableEq

/-- Python exceptions that the driver code can raise. -/
inductive PyErr where
  | nameError (n : String)
  | typeError (msg : String)
  | attributeError (n : String)
deriving Repr, DecidableEq

/-- A small universe of Python runtime values, enough for the dynamically
typed expressions occurring in the driver (`bin(...)` produces a `str`,
`~0xFB` an `int`, ...). -/
inductive PyVal where
  | int (n : Int)
  | str (s : String)
  | bool (b : Bool)
  | list (xs : List Int)
  | none
deriving Repr, DecidableEq

/-- Python's runtime type name of a value, as used in TypeError messages. -/
def typeName : PyVal → String
  | .int _ => "int"
  | .str _ => "str"
  | .bool _ => "bool"
  | .list _ => "list"
  | .none => "NoneType"

/-- Python `bin(n)` for a nonnegative integer: the string "0b" followed by the
binary digits. -/
def pyBin (n : Nat) : String := "0b" ++ String.mk (Nat.toDigits 2 n)

/-- Python `~x` on an int: bitwise complement, i.e. `-x - 1`. -/
def pyInvert (x : Int) : Int := -x - 1

/-- Python `a & b`: defined on int operands, a TypeError otherwise (in
particular `str & int` raises, which is what `bin(status) & ~0xFB` hits). -/
def pyAnd : PyVal → PyVal → Except PyErr PyVal
  | .int a, .int b => .ok (.int (Int.land a b))
  | a, b =>
      .error (.typeError ("unsupported operand type(s) for &: " ++ typeName a
        ++ " and " ++ typeName b))

/-- Python `v >> k` for a nonnegative shift count: arithmetic right shift on
ints, a TypeError on other operand types. -/
def pyShr : PyVal → Nat → Except PyErr PyVal
  | .int a, k => .ok (.int (Int.shiftRight a k))
  | v, _ =>
      .error (.typeError ("unsupported operand type(s) for >>: " ++ typeName v
        ++ " and int"))

/-- Python truthiness, as applied by `bool(...)`. -/
def pyBool : PyVal → Bool
  | .int n => n != 0
  | .str s => s.length != 0
  | .bool b => b
  | .list xs => xs.length != 0
  | .none => false

/-- The names bound at module level in `qwiic_button.py`: the two imports and
the three module-level definitions.  Notably `qwiic` and `self` are NOT module
globals, which decides the NameErrors below. -/
def moduleGlobals : List String :=
  ["math", "qwiic_i2c", "_DEFAULT_NAME", "_AVAILABLE_I2C_ADDRESS", "QwiicButton"]

/-- Whether a bare name that is not a local variable resolves at module scope. -/
def globalDefined (n : String) : Bool := moduleGlobals.contains n

/-- `_AVAILABLE_I2C_ADDRESS = [0x6F]`; the first entry is the default address. -/
def _AVAILABLE_I2C_ADDRESS : List Nat := [0x6F]

/-- The driver handle.  `address` is the stored I2C address.  `_i2c` models the
instance attribute of the same name: `Option.none` means the attribute was
never assigned (access raises AttributeError), `some Option.none` means it is
bound to Python `None`, and `some (some t)` means it is bound to transport `t`. -/
structure QwiicButton where
  address : Nat
  _i2c : Option (Option Transport)

/-- Device ID constant for all Qwiic Buttons. -/
def QwiicButton.DEV_ID : Nat := 0x5D

/-- Register offsets (class attributes of `QwiicButton`). -/
def QwiicButton.ID : Nat := 0x00

/-- FIRMWARE_MINOR register offset. -/
def QwiicButton.FIRMWARE_MINOR : Nat := 0x01

/-- FIRMWARE_MAJOR register offset. -/
def QwiicButton.FIRMWARE_MAJOR : Nat := 0x02

/-- BUTTON_STATUS register offset. -/
def QwiicButton.BUTTON_STATUS : Nat := 0x03

/-- BUTTON_DEBOUNCE_TIME register offset (2 bytes wide). -/
def QwiicButton.BUTTON_DEBOUNCE_TIME : Nat := 0x05

/-- I2C_ADDRESS register offset. -/
def QwiicButton.I2C_ADDRESS : Nat := 0x1F

/-- Result of invoking one driver method: the Python outcome (return value or
raised exception), the handle state after the call, and the transactions
issued to the transport during the call. -/
structure MethodResult (α : Type) where
  result : Except PyErr α
  state : QwiicButton
  txns : List Txn

/-- Evaluate the attribute chain `self._i2c.<attr>(...)`: raises
AttributeError when `_i2c` was never assigned, raises AttributeError on the
named attribute when `_i2c` is bound to `None`, and yields the transport
otherwise. -/
def QwiicButton.getTransport (self : QwiicButton) (attr : String) :
    Except PyErr Transport :=
  match self._i2c with
  | Option.none => .error (.attributeError "_i2c")
  | some Option.none => .error (.attributeError attr)
  | some (some t) => .ok t

/-- `__init__(self, address=None, i2c_driver=None)`.  `platformDriver` stands
for the value `qwiic_i2c.getI2CDriver()` would return on this platform.
Source: `self.address = address if address != None else
self.available_addresses[0]`; then, only when `i2c_driver == None`, the body
assigns `self._i2c = qwiic_i2c.getI2CDriver()` and — when that loaded a
driver — immediately overwrites it with `self._i2c = i2c_driver` (which is
`None` on this branch).  When `i2c_driver` is not `None`, `_i2c` is never
assigned at all. -/
def QwiicButton.init (address : Option Nat) (i2c_driver : Option Transport)
    (platformDriver : Option Transport) : QwiicButton :=
  let addr := match address with
    | some a => a
    | Option.none => _AVAILABLE_I2C_ADDRESS.headD 0
  match i2c_driver with
  | some _ => { address := addr, _i2c := Option.none }
  | Option.none =>
    match platformDriver with
    | Option.none => { address := addr, _i2c := some Option.none }
    | some _ => { address := addr, _i2c := some i2c_driver }

/-- `isConnected(self)`.  Source line 149: `return
qwiic._i2c.isDeviceConnected(self.address)`.  The bare name `qwiic` is not a
local and not a module global, so evaluating it raises `NameError` before any
transport access.  (The guarded branch records what would happen if a global
of that name carrying no `_i2c` attribute existed.) -/
def QwiicButton.isConnected (self : QwiicButton) : MethodResult Bool :=
  if globalDefined "qwiic" then
    ⟨.error (.attributeError "_i2c"), self, []⟩
  else
    ⟨.error (.nameError "qwiic"), self, []⟩

/-- `begin(self)`: calls `self.isConnected()`; on `True` reads the ID register
through `self._i2c` and returns whether it equals `DEV_ID`; otherwise returns
`False`.  An exception from `isConnected` propagates. -/
def QwiicButton.begin (self : QwiicButton) : MethodResult Bool :=
  let r := self.isConnected
  match r.result with
  | .error e => ⟨.error e, r.state, r.txns⟩
  | .ok connected =>
    if connected then
      match r.state.getTransport "readByte" with
      | .error e => ⟨.error e, r.state, r.txns⟩
      | .ok t =>
        let idByte := t.readByte r.state.address QwiicButton.ID
        ⟨.ok (idByte == QwiicButton.DEV_ID), r.state,
          r.txns ++ [Txn.readByte r.state.address QwiicButton.ID]⟩
    else
      ⟨.ok false, r.state, r.txns⟩

/-- `getFirmwareVersion(self)`: reads the major byte, shifts it left 8, ORs in
the minor byte. -/
def QwiicButton.getFirmwareVersion (self : QwiicButton) : MethodResult Nat :=
  match self.getTransport "readByte" with
  | .error e => ⟨.error e, self, []⟩
  | .ok t =>
    let major := t.readByte self.address QwiicButton.FIRMWARE_MAJOR
    let minor := t.readByte self.address QwiicButton.FIRMWARE_MINOR
    ⟨.ok ((major <<< 8) ||| minor), self,
      [Txn.readByte self.address QwiicButton.FIRMWARE_MAJOR,
       Txn.readByte self.address QwiicButton.FIRMWARE_MINOR]⟩

/-- `setI2Caddress(self, newAddress)`: rejects addresses outside
`[0x08, 0x77]` before touching the device; otherwise writes the new address to
the I2C_ADDRESS register and updates `self.address` only when the write
reported success. -/
def QwiicButton.setI2Caddress (self : QwiicButton) (newAddress : Nat) :
    MethodResult Bool :=
  if newAddress < 0x08 ∨ newAddress > 0x77 then
    ⟨.ok false, self, []⟩
  else
    match self.getTransport "writeByte" with
    | .error e => ⟨.error e, self, []⟩
    | .ok t =>
      let success := t.writeByte self.address QwiicButton.I2C_ADDRESS newAddress
      if success then
        ⟨.ok true, { self with address := newAddress },
          [Txn.writeByte self.address QwiicButton.I2C_ADDRESS newAddress]⟩
      else
        ⟨.ok false, self,
          [Txn.writeByte self.address QwiicButton.I2C_ADDRESS newAddress]⟩

/-- `getI2Caddress(sel)`.  The parameter is named `sel`, but the body is
`return self.address`: `self` is neither a local nor a module global, so the
call raises `NameError` instead of returning the stored address. -/
def QwiicButton.getI2Caddress (sel : QwiicButton) : MethodResult Nat :=
  if globalDefined "self" then
    ⟨.error (.attributeError "address"), sel, []⟩
  else
    ⟨.error (.nameError "self"), sel, []⟩

/-- `isPressed(self)`: reads BUTTON_STATUS, then evaluates
`bin(button_status) & ~(0xFB)` — a `str & int` operation — intending to keep
bit 2, shift it down and booleanize it.  The instance-attribute assignments to
`self.isPressed` are omitted here because the `&` raises before the first
assignment can happen. -/
def QwiicButton.isPressed (self : QwiicButton) : MethodResult Bool :=
  match self.getTransport "readByte" with
  | .error e => ⟨.error e, self, []⟩
  | .ok t =>
    let button_status := t.readByte self.address QwiicButton.BUTTON_STATUS
    let tx := [Txn.readByte self.address QwiicButton.BUTTON_STATUS]
    match pyAnd (PyVal.str (pyBin button_status)) (PyVal.int (pyInvert 0xFB)) with
    | .error e => ⟨.error e, self, tx⟩
    | .ok masked =>
      match pyShr masked 2 with
      | .error e => ⟨.error e, self, tx⟩
      | .ok shifted => ⟨.ok (pyBool shifted), self, tx⟩

/-- `hasBeenClicked(self)`: same shape as `isPressed`, with mask `~(0xFD)` and
shift 1 for bit 1. -/
def QwiicButton.hasBeenClicked (self : QwiicButton) : MethodResult Bool :=
  match self.getTransport "readByte" with
  | .error e => ⟨.error e, self, []⟩
  | .ok t =>
    let button_status := t.readByte self.address QwiicButton.BUTTON_STATUS
    let tx := [Txn.readByte self.address QwiicButton.BUTTON_STATUS]
    match pyAnd (PyVal.str (pyBin button_status)) (PyVal.int (pyInvert 0xFD)) with
    | .error e => ⟨.error e, self, tx⟩
    | .ok masked =>
      match pyShr masked 1 with
      | .error e => ⟨.error e, self, tx⟩
      | .ok shifted => ⟨.ok (pyBool shifted), self, tx⟩

/-- `getDebounceTime(self)`: returns the raw result of
`self._i2c.readBlock(self.address, BUTTON_DEBOUNCE_TIME, 2)` — a 2-element
byte list — unchanged (the source's own TODO notes the two bytes still need
to be combined). -/
def QwiicButton.getDebounceTime (self : QwiicButton) : MethodResult (List Nat) :=
  match self.getTransport "readBlock" with
  | .error e => ⟨.error e, self, []⟩
  | .ok t =>
    ⟨.ok (t.readBlock self.address QwiicButton.BUTTON_DEBOUNCE_TIME 2), self,
      [Txn.readBlock self.address QwiicButton.BUTTON_DEBOUNCE_TIME 2]⟩

/-- `setDebouncetime(self, time)`: replaces `time` by `0xFFFF` when
`time > 0xFFFF` (no lower bound is checked), then writes the word to
BUTTON_DEBOUNCE_TIME; the write's return value is discarded and the method
returns `None` (modelled as `Unit`). -/
def QwiicButton.setDebouncetime (self : QwiicButton) (time : Int) :
    MethodResult Unit :=
  let clamped := if time > 0xFFFF then (0xFFFF : Int) else time
  match self.getTransport "writeWord" with
  | .error e => ⟨.error e, self, []⟩
  | .ok t =>
    let _ := t.writeWord self.address QwiicButton.BUTTON_DEBOUNCE_TIME clamped
    ⟨.ok (), self,
      [Txn.writeWord self.address QwiicButton.BUTTON_DEBOUNCE_TIME clamped]⟩

/-- The operations a caller can invoke on a handle, used to quantify over
call sequences for the reachable-state invariant. -/
inductive Op where
  | opBegin
  | opIsConnected
  | opGetFirmwareVersion
  | opSetI2Caddress (newAddress : Nat)
  | opGetI2Caddress
  | opIsPressed
  | opHasBeenClicked
  | opGetDebounceTime
  | opSetDebouncetime (time : Int)
deriving Repr, DecidableEq

/-- The handle state after invoking one operation (the state component of the
corresponding method result). -/
def runOp (self : QwiicButton) (op : Op) : QwiicButton :=
  match op with
  | .opBegin => self.begin.state
  | .opIsConnected => self.isConnected.state
  | .opGetFirmwareVersion => self.getFirmwareVersion.state
  | .opSetI2Caddress x => (self.setI2Caddress x).state
  | .opGetI2Caddress => (QwiicButton.getI2Caddress self).state
  | .opIsPressed => self.isPressed.state
  | .opHasBeenClicked => self.hasBeenClicked.state
  | .opGetDebounceTime => self.getDebounceTime.state
  | .opSetDebouncetime ms => (self.setDebouncetime ms).state

/-- The handle state after a sequence of operations. -/
def runOps (self : QwiicButton) (ops : List Op) : QwiicButton :=
  ops.foldl runOp self

/-- A mock transport for concrete evaluations: device present, every register
reads as the device ID, block reads give the two bytes 0x12, 0x34, and all
writes succeed. -/
def tAllOk : Transport :=
  { isDeviceConnected := fun _ => true
    readByte := fun _ _ => 0x5D
    readBlock := fun _ _ _ => [0x12, 0x34]
    writeByte := fun _ _ _ => true
    writeWord := fun _ _ _ => true }

/-- A handle at the default address whose `_i2c` attribute is bound to the
mock transport, i.e. the state the constructor was evidently intended to
produce. -/
def hBound : QwiicButton := { address := 0x6F, _i2c := some (some tAllOk) }

/-! State-preservation lemmas: every method except `setI2Caddress` leaves the
handle state unchanged (whether it returns or raises). -/

lemma isConnected_state (self : QwiicButton) : self.isConnected.state = self := rfl

lemma begin_state (self : QwiicButton) : self.begin.state = self := rfl

lemma getI2Caddress_state (self : QwiicButton) :
    (QwiicButton.getI2Caddress self).state = self := rfl

lemma getFirmwareVersion_state (self : QwiicButton) :
    self.getFirmwareVersion.state = self := by
  rcases self with ⟨a, _ | (_ | t)⟩ <;> rfl

lemma isPressed_state (self : QwiicButton) : self.isPressed.state = self := by
  rcases self with ⟨a, _ | (_ | t)⟩ <;> rfl

lemma hasBeenClicked_state (self : QwiicButton) :
    self.hasBeenClicked.state = self := by
  rcases self with ⟨a, _ | (_ | t)⟩ <;> rfl

lemma getDebounceTime_state (self : QwiicButton) :
    self.getDebounceTime.state = self := by
  rcases self with ⟨a, _ | (_ | t)⟩ <;> rfl

lemma setDebouncetime_state (self : QwiicButton) (ms : Int) :
    (self.setDebouncetime ms).state = self := by
  rcases self with ⟨a, _ | (_ | t)⟩ <;> rfl

/-- After any single operation the address either is unchanged or lies in the
validated range `[0x08, 0x77]` (the only mutation is a validated
`setI2Caddress`). -/
lemma runOp_address (self : QwiicButton) (op : Op) :
    (runOp self op).address = self.address ∨
    (0x08 ≤ (runOp self op).address ∧ (runOp self op).address ≤ 0x77) := by
  cases op with
  | opBegin => left; simp [runOp, begin_state]
  | opIsConnected => left; simp [runOp, isConnected_state]
  | opGetFirmwareVersion => left; simp [runOp, getFirmwareVersion_state]
  | opGetI2Caddress => left; simp [runOp, getI2Caddress_state]
  | opIsPressed => left; simp [runOp, isPressed_state]
  | opHasBeenClicked => left; simp [runOp, hasBeenClicked_state]
  | opGetDebounceTime => left; simp [runOp, getDebounceTime_state]
  | opSetDebouncetime ms => left; simp [runOp, setDebouncetime_state]
  | opSetI2Caddress x =>
      simp only [runOp]
      unfold QwiicButton.setI2Caddress
      by_cases h : x < 0x08 ∨ x > 0x77
      · rw [if_pos h]; left; rfl
      · rw [if_neg h]
        push_neg at h
        rcases self with ⟨a, _ | (_ | t)⟩
        · left; rfl
        · left; rfl
        · dsimp [QwiicButton.getTransport]
          cases hw : t.writeByte a QwiicButton.I2C_ADDRESS x <;> simp [hw]
          omega


/-! Claim theorems. -/

/-- C1: the claim says `begin()` returns true iff the transport reports the
device connected and the ID register reads 0x5D, and false otherwise.  The
code instead raises `NameError` on every call, in every handle state: `begin`
first calls `isConnected`, whose body reads the undefined global `qwiic`
(`qwiic._i2c.isDeviceConnected(...)`), so no boolean is ever returned and no
transaction is ever issued. -/
theorem begin_raises_nameError_C1 (self : QwiicButton) :
    self.begin.result = Except.error (PyErr.nameError "qwiic") ∧
    self.begin.txns = [] :=
  ⟨rfl, rfl⟩

/-- C2: the claim says every driver operation signals normal failures through
its return value and raises no exception.  In fact `isConnected` (hence the
not-connected failure path of `begin`) raises `NameError` on the undefined
global `qwiic`, `getI2Caddress` raises `NameError` on `self` (its parameter is
spelled `sel`), and `isPressed` on a handle with a working transport raises
`TypeError` from `bin(status) & ~0xFB`. -/
theorem failure_paths_raise_C2 (self : QwiicButton) :
    self.isConnected.result = Except.error (PyErr.nameError "qwiic") ∧
    (QwiicButton.getI2Caddress self).result =
      Except.error (PyErr.nameError "self") ∧
    hBound.isPressed.result =
      Except.error
        (PyErr.typeError "unsupported operand type(s) for &: str and int") :=
  ⟨rfl, rfl, rfl⟩

/-- C3: the claim says `isPressed()` returns bit 2 and `hasBeenClicked()`
bit 1 of the status byte, for every status value.  The code instead raises
`TypeError` for every status byte the transport can return: `bin(...)`
produces a string, and `str & int` is not defined, so neither method ever
returns a boolean. -/
theorem status_bits_raise_typeError_C3 (addr : Nat) (t : Transport) :
    (QwiicButton.isPressed ⟨addr, some (some t)⟩).result =
      Except.error
        (PyErr.typeError "unsupported operand type(s) for &: str and int") ∧
    (QwiicButton.hasBeenClicked ⟨addr, some (some t)⟩).result =
      Except.error
        (PyErr.typeError "unsupported operand type(s) for &: str and int") :=
  ⟨rfl, rfl⟩

/-- The masking the source intends (`status & ~0xFB` shifted right 2, and
`status & ~0xFD` shifted right 1) does extract bit 2 and bit 1 of every
status byte: within a byte, masking with the complement of 0xFB keeps exactly
bit 0x04 and the complement of 0xFD keeps exactly 0x02.  This confirms the
spec's reading of the intent behind the broken expressions. -/
theorem intended_masks_extract_bits : ∀ s : Fin 256,
    ((s : Nat) &&& (0xFF ^^^ 0xFB)) >>> 2 =
      (if (s : Nat).testBit 2 then 1 else 0) ∧
    ((s : Nat) &&& (0xFF ^^^ 0xFD)) >>> 1 =
      (if (s : Nat).testBit 1 then 1 else 0) := by
  set_option maxRecDepth 8192 in decide

/-- C4: for every out-of-range new address (below 0x08 or above 0x77),
`setI2Caddress` returns `False`, issues no transaction, and leaves the handle
(including its stored address) unchanged. -/
theorem setI2Caddress_invalid_C4 (self : QwiicButton) (x : Nat)
    (h : x < 0x08 ∨ x > 0x77) :
    (self.setI2Caddress x).result = Except.ok false ∧
    (self.setI2Caddress x).state = self ∧
    (self.setI2Caddress x).txns = [] := by
  unfold QwiicButton.setI2Caddress
  rw [if_pos h]
  exact ⟨rfl, rfl, rfl⟩

/-- Witness for C4 at the concrete out-of-range address 0x78. -/
theorem setI2Caddress_invalid_C4_witness :
    (hBound.setI2Caddress 0x78).result = Except.ok false ∧
    (hBound.setI2Caddress 0x78).state = hBound ∧
    (hBound.setI2Caddress 0x78).txns = [] :=
  setI2Caddress_invalid_C4 hBound 0x78 (Or.inr (by decide))

/-- C5: for every in-range new address on a handle whose `_i2c` attribute is
bound to a transport, `setI2Caddress` returns exactly the success flag of the
transport's write to the I2C_ADDRESS register, the stored address becomes the
new address exactly when that write succeeded (keeping its old value
otherwise), and exactly that one write is issued. -/
theorem setI2Caddress_valid_C5 (self : QwiicButton) (t : Transport) (x : Nat)
    (ht : self._i2c = some (some t)) (h1 : 0x08 ≤ x) (h2 : x ≤ 0x77) :
    (self.setI2Caddress x).result =
      Except.ok (t.writeByte self.address QwiicButton.I2C_ADDRESS x) ∧
    (self.setI2Caddress x).state.address =
      (if t.writeByte self.address QwiicButton.I2C_ADDRESS x then x
       else self.address) ∧
    (self.setI2Caddress x).txns =
      [Txn.writeByte self.address QwiicButton.I2C_ADDRESS x] := by
  have hcond : ¬ (x < 0x08 ∨ x > 0x77) := by omega
  unfold QwiicButton.setI2Caddress QwiicButton.getTransport
  rw [if_neg hcond, ht]
  cases hw : t.writeByte self.address QwiicButton.I2C_ADDRESS x <;> simp [hw]

/-- Witness for C5: changing the address to 0x20 over a transport whose writes
succeed returns `True` and stores 0x20. -/
theorem setI2Caddress_valid_C5_witness :
    (hBound.setI2Caddress 0x20).result = Except.ok true ∧
    (hBound.setI2Caddress 0x20).state.address = 0x20 ∧
    (hBound.setI2Caddress 0x20).txns = [Txn.writeByte 0x6F 0x1F 0x20] := by
  have h := setI2Caddress_valid_C5 hBound tAllOk 0x20 rfl (by decide) (by decide)
  exact ⟨h.1, h.2.1, h.2.2⟩

/-- C6: the constructor never leaves a usable transport on the handle.  With a
caller-supplied transport (`i2c_driver` not `None`) the `_i2c` attribute is
never assigned at all; with `i2c_driver=None` on a platform whose driver
loads, the loaded driver is immediately overwritten by `self._i2c =
i2c_driver`, i.e. by `None`. -/
theorem init_never_binds_transport_C6 (addr : Option Nat) (t d : Transport) :
    (QwiicButton.init addr (some t) (some d))._i2c = Option.none ∧
    (QwiicButton.init addr (some t) Option.none)._i2c = Option.none ∧
    (QwiicButton.init addr Option.none (some d))._i2c = some Option.none :=
  ⟨rfl, rfl, rfl⟩

/-- C7: the claim says `getDebounceTime()` combines the two bytes read from
the debounce-time register into one 16-bit integer.  The code returns the raw
2-element byte list from `readBlock` unchanged (its own TODO comment admits
the combination is missing): with the block reading `[0x12, 0x34]`, the
result is the list `[0x12, 0x34]`, not a combined integer. -/
theorem getDebounceTime_returns_raw_pair_C7 :
    hBound.getDebounceTime.result = Except.ok [0x12, 0x34] ∧
    hBound.getDebounceTime.txns = [Txn.readBlock 0x6F 0x05 2] :=
  ⟨rfl, rfl⟩

/-- C8 counterexample: the claim says the input is clamped to `[0, 0xFFFF]`,
but `setDebouncetime(-1)` writes the word -1 to the device, and -1 is below
the claimed lower bound 0. -/
theorem setDebouncetime_negative_unclamped_C8 :
    (hBound.setDebouncetime (-1)).txns = [Txn.writeWord 0x6F 0x05 (-1)] ∧
    ¬ ((0 : Int) ≤ -1) :=
  ⟨rfl, by decide⟩

/-- C8 amended: on a handle with a bound transport, `setDebouncetime(ms)`
clamps only from above — it writes `0xFFFF` when `ms > 0xFFFF` (in particular
for ms = 70000) and writes `ms` unchanged otherwise, including negative
values; the method returns `None`. -/
theorem setDebouncetime_upper_clamp_C8 (self : QwiicButton) (t : Transport)
    (ms : Int) (ht : self._i2c = some (some t)) :
    (self.setDebouncetime ms).result = Except.ok () ∧
    (self.setDebouncetime ms).txns =
      [Txn.writeWord self.address QwiicButton.BUTTON_DEBOUNCE_TIME
        (if ms > 0xFFFF then 0xFFFF else ms)] := by
  unfold QwiicButton.setDebouncetime QwiicButton.getTransport
  rw [ht]
  exact ⟨rfl, rfl⟩

/-- Witness for C8 amended: `setDebouncetime(70000)` writes exactly the word
0xFFFF to the debounce register. -/
theorem setDebouncetime_upper_clamp_C8_witness :
    (hBound.setDebouncetime 70000).result = Except.ok () ∧
    (hBound.setDebouncetime 70000).txns = [Txn.writeWord 0x6F 0x05 0xFFFF] := by
  have h := setDebouncetime_upper_clamp_C8 hBound tAllOk 70000 rfl
  simpa [hBound, QwiicButton.BUTTON_DEBOUNCE_TIME] using h

/-- C9: starting from any handle whose address is in `[0x08, 0x77]` — which
covers construction at the default address — every sequence of driver
operations keeps the stored address in `[0x08, 0x77]` (the only successful
address change stores a validated value); and the default address used by the
constructor when none is supplied is the constant 0x6F. -/
theorem address_invariant_C9 (self : QwiicButton) (ops : List Op)
    (h1 : 0x08 ≤ self.address) (h2 : self.address ≤ 0x77) :
    (0x08 ≤ (runOps self ops).address ∧ (runOps self ops).address ≤ 0x77) ∧
    (QwiicButton.init Option.none Option.none Option.none).address = 0x6F := by
  refine ⟨?_, rfl⟩
  induction ops generalizing self with
  | nil => exact ⟨h1, h2⟩
  | cons op ops ih =>
      simp only [runOps, List.foldl_cons]
      rcases runOp_address self op with h | ⟨ha, hb⟩
      · exact ih (runOp self op) (by omega) (by omega)
      · exact ih (runOp self op) ha hb

/-- Witness for C9: from the default-constructed handle rebased onto a working
transport, a successful address change to 0x20 keeps the address in range. -/
theorem address_invariant_C9_witness :
    ((0x08 ≤ (runOps hBound [Op.opSetI2Caddress 0x20]).address ∧
      (runOps hBound [Op.opSetI2Caddress 0x20]).address ≤ 0x77) ∧
     (QwiicButton.init Option.none Option.none Option.none).address = 0x6F) :=
  address_invariant_C9 hBound [Op.opSetI2Caddress 0x20] (by decide) (by decide)

/-- C10: the claim says `getI2Caddress()` returns the stored address with no
transaction and no state change.  The method's parameter is spelled `sel`
while its body returns `self.address`, so every call raises `NameError` on
the undefined name `self` instead of returning the address (it does issue no
transaction and leaves the state unchanged). -/
theorem getI2Caddress_raises_C10 (sel : QwiicButton) :
    (QwiicButton.getI2Caddress sel).result =
      Except.error (PyErr.nameError "self") ∧
    (QwiicButton.getI2Caddress sel).txns = [] ∧
    (QwiicButton.getI2Caddress sel).state = sel :=
  ⟨rfl, rfl, rfl⟩
